import Mathlib

/-!
Shallow embedding of the `llm_utilities` Python package
(`src/llm_utilities/utilities.py`), covering the functions the
specification's claims are about:

* `check_all_arguments_are_none_or_not`
* `get_optimal_uintype`
* `check_keys_not_missing`
* `load_id_from_env`
* `load_config_from_path` (the spec's `resolve`)

Python exceptions are embedded as an `Except PyError` result; the filesystem
and the process environment are passed explicitly (the filesystem as a map
from path strings to the decoded top-level JSON object of the file at that
path, the environment as an association list).  Record values are kept
abstract (a type parameter), since the code never inspects them.
-/

namespace LlmUtilities

/-- The Python exception classes raised by the embedded functions, each
carrying its message string.  The spec's taxonomy maps onto these as:
NotFound = `FileNotFoundError` or a not-found `KeyError`, TypeMismatch =
`TypeError`, InvalidFormat = `ValueError`, MissingKeys = a missing-keys
`KeyError`. -/
inductive PyError where
  | fileNotFoundError (msg : String)
  | typeError (msg : String)
  | keyError (msg : String)
  | valueError (msg : String)
deriving DecidableEq, Repr

/-! ### String helpers (modelling CPython primitives used by the code) -/

/-- One step bound of `str.replace`: structural-recursion (fuel) version of
left-to-right, non-overlapping replacement of `pat` by `repl`. -/
def replaceCharsFuel (pat repl : List Char) : Nat → List Char → List Char
  | _, [] => []
  | 0, l => l
  | fuel + 1, c :: rest =>
    if pat ≠ [] ∧ pat.isPrefixOf (c :: rest) then
      repl ++ replaceCharsFuel pat repl fuel (rest.drop (pat.length - 1))
    else
      c :: replaceCharsFuel pat repl fuel rest

/-- Modelled from CPython `str.replace(pat, repl)` (for non-empty `pat`):
replaces every non-overlapping occurrence, scanning left to right. -/
def replaceChars (pat repl l : List Char) : List Char :=
  replaceCharsFuel pat repl l.length l

/-- Modelled from CPython `str.strip(chars)`: removes leading and trailing
characters satisfying `p`. -/
def pyStrip (p : Char → Bool) (l : List Char) : List Char :=
  ((l.dropWhile p).reverse.dropWhile p).reverse

def isBraceChar (c : Char) : Bool :=
  c = '\x7b' ∨ c = '\x7d'

def isHexDigitChar (c : Char) : Bool :=
  ('0' ≤ c ∧ c ≤ '9') ∨ ('a' ≤ c ∧ c ≤ 'f') ∨ ('A' ≤ c ∧ c ≤ 'F')

def hexDigitValue (c : Char) : Nat :=
  if '0' ≤ c ∧ c ≤ '9' then c.toNat - '0'.toNat
  else if 'a' ≤ c ∧ c ≤ 'f' then c.toNat - 'a'.toNat + 10
  else c.toNat - 'A'.toNat + 10

def hexValue (l : List Char) : Nat :=
  l.foldl (fun acc c => acc * 16 + hexDigitValue c) 0

/-- Modelled from CPython `uuid.UUID(hex)` string parsing:
`hex.replace('urn:', '').replace('uuid:', '')`, then `strip('\x7b\x7d')`,
then `replace('-', '')`; the result must be 32 hexadecimal digits, whose
value (via `int(hex, 16)`) is the UUID's 128-bit integer.  The exotic
integer-literal forms CPython's `int(·, 16)` additionally tolerates (an
explicit sign, a `0x` prefix, underscores between digits) are not modelled:
no claim depends on them.  The UUID itself is embedded as its integer
(`uuid.UUID.__eq__` and `str` are determined by it). -/
def pyUUID (s : String) : Option Nat :=
  let h :=
    replaceChars ['-'] []
      (pyStrip isBraceChar
        (replaceChars "uuid:".data []
          (replaceChars "urn:".data [] s.data)))
  if h.length = 32 ∧ h.all isHexDigitChar then some (hexValue h) else none

def toHexChar (n : Nat) : Char :=
  if n < 10 then Char.ofNat ('0'.toNat + n) else Char.ofNat ('a'.toNat + n - 10)

/-- Little-endian list of `k` hex digits of `n` (low digit first). -/
def natToHexRev : Nat → Nat → List Char
  | 0, _ => []
  | k + 1, n => toHexChar (n % 16) :: natToHexRev k (n / 16)

/-- Modelled from CPython `str(uuid.UUID)`: the canonical
8-4-4-4-12 lowercase-hex string form of the UUID's 128-bit integer. -/
def uuidStr (n : Nat) : String :=
  let h := (natToHexRev 32 n).reverse
  String.mk (h.take 8) ++ "-" ++ String.mk ((h.drop 8).take 4) ++ "-" ++
    String.mk ((h.drop 12).take 4) ++ "-" ++ String.mk ((h.drop 16).take 4) ++
    "-" ++ String.mk (h.drop 20)

/-- Split a character list on a separator character (every occurrence). -/
def splitOnChar (sep : Char) : List Char → List (List Char)
  | [] => [[]]
  | c :: rest =>
    match splitOnChar sep rest with
    | [] => if c = sep then [[], []] else [[c]]
    | h :: t => if c = sep then [] :: h :: t else (c :: h) :: t

/-- Modelled from CPython `pathlib.PurePosixPath(p).name`: the last
component of the path, with empty and `.` components dropped. -/
def pathName (p : String) : List Char :=
  (((splitOnChar '/' p.data).filter (fun c => c ≠ [] ∧ c ≠ ['.'])).getLast?).getD []

/-- Modelled from CPython `pathlib.PurePath.suffix`: the substring of the
path's name from its last dot, or `""` when the name has no dot, starts
with its only dot, or ends with the dot. -/
def pathSuffix (p : String) : String :=
  let name := pathName p
  match name.reverse.findIdx? (fun c => c = '.') with
  | none => ""
  | some j =>
    let i := name.length - 1 - j
    if 0 < i ∧ i < name.length - 1 then String.mk (name.drop i) else ""

/-! ### The embedded functions -/

/-- `check_all_arguments_are_none_or_not(*args)`: each argument is embedded
as an `Option` (`none` = Python `None`).  Computes
`not (any(all_none) and (not all(all_none)))` for
`all_none = [arg is None for arg in args]`. -/
def check_all_arguments_are_none_or_not {α : Type} (args : List (Option α)) : Bool :=
  let all_none := args.map Option.isNone
  !((all_none.any id) && !(all_none.all id))

/-- The exact value of the Python float literal `3.4028235e+38` (an IEEE-754
double; its value is an integer). -/
def float32UpperLit : Int := 340282349999999991754788743781432688640

/-- `get_optimal_uintype(number)` restricted to `int` inputs (the claims
quantify over integers; Python compares an `int` with the `float` literal
`3.4028235e+38` exactly, so that branch uses the literal's exact value). -/
def get_optimal_uintype (number : Int) : Except PyError String :=
  if number < 0 then
    Except.error (PyError.valueError "Input number must be non-negative.")
  else if number ≤ 255 then Except.ok "uint8"
  else if number ≤ 65535 then Except.ok "uint16"
  else if number ≤ 4294967295 then Except.ok "uint32"
  else if number ≤ 18446744073709551615 then Except.ok "uint64"
  else if number ≤ float32UpperLit then Except.ok "float32"
  else Except.ok "float64"

/-- The missing keys computed by `check_keys_not_missing`:
`{*required_keys} - mapping.keys()`, as a duplicate-free list.  CPython's
set iteration order is implementation-defined; it is modelled as the order
of `required_keys` (`List.dedup` keeps one occurrence of each key). -/
def missingKeys (required_keys mapping_keys : List String) : List String :=
  required_keys.dedup.filter (fun k => !(mapping_keys.contains k))

/-- `check_keys_not_missing(required_keys, mapping, mapping_name)`: mappings
are embedded as association lists (keys in stored order), keys as strings
(so Python's `str(key)` is the key itself); `mapping_name = none` embeds the
Python default `None`.  Note the Python guard `if mapping_name` is false
both for `None` and for the empty string. -/
def check_keys_not_missing {α : Type} (required_keys : List String)
    (mapping : List (String × α)) (mapping_name : Option String) :
    Except PyError Unit :=
  let missing := missingKeys required_keys (mapping.map Prod.fst)
  if missing.isEmpty then Except.ok ()
  else
    let missing_keys_str := String.intercalate ", " missing
    let error_suffix :=
      match mapping_name with
      | some s => if s = "" then "." else " in " ++ s ++ "."
      | none => "."
    Except.error (PyError.keyError ("missing keys " ++ missing_keys_str ++ error_suffix))

/-- `load_id_from_env(env_variable_name)`: the process environment is
embedded as an association list; `environ.keys()` membership and
`getenv` agree on it.  When the variable is set, `getenv` returns a string,
so the `TypeError` alternative of the `except` clause is unreachable. -/
def load_id_from_env (environ : List (String × String))
    (env_variable_name : String) : Except PyError Nat :=
  match environ.lookup env_variable_name with
  | none =>
      Except.error (PyError.keyError
        (env_variable_name ++ " not found in environment variables."))
  | some v =>
      match pyUUID v with
      | some u => Except.ok u
      | none =>
          Except.error (PyError.valueError
            ("The value of " ++ env_variable_name ++ " not a valid UUID."))

/-- The `for config_uuid_, config in configs.items(): ... break / else`
scan of `load_config_from_path`: walk the top-level keys in stored order,
skip keys `uuid.UUID` rejects, stop at the first key whose parsed UUID
equals `config_uuid` and yield its value. -/
def scanConfigs {α : Type} (config_uuid : Nat) : List (String × α) → Option α
  | [] => none
  | (k, v) :: rest =>
    match pyUUID k with
    | none => scanConfigs config_uuid rest
    | some u => if config_uuid = u then some v else scanConfigs config_uuid rest

/-- `load_config_from_path(config_path, required_keys, config_uuid)` — the
spec's `resolve`.  `fs` embeds the filesystem: `fs p = none` iff
`Path(p).is_file()` is false, and otherwise gives the `msgspec.json`-decoded
top-level object of the file's bytes as an association list of records (the
claims concern documents whose top level is an object; record values stay
abstract).  Paths are kept as their strings (`str(Path(p)) = p` for the
already-normalised paths the claims use). -/
def load_config_from_path {α : Type}
    (fs : String → Option (List (String × List (String × α))))
    (config_path : String) (required_keys : List String) (config_uuid : Nat) :
    Except PyError (List (String × α)) :=
  match fs config_path with
  | none => Except.error (PyError.fileNotFoundError (config_path ++ " not found."))
  | some configs =>
    if pathSuffix config_path ≠ ".json" then
      Except.error (PyError.typeError (config_path ++ " must be a .json file."))
    else
      match scanConfigs config_uuid configs with
      | none =>
          Except.error (PyError.keyError
            ("config_uuid " ++ uuidStr config_uuid ++ " not found as key in app_config."))
      | some config =>
          match check_keys_not_missing required_keys config (some "config") with
          | Except.error e => Except.error e
          | Except.ok _ => Except.ok config

/-! ### Helper lemmas -/

theorem missingKeys_eq_nil_iff (required_keys mapping_keys : List String) :
    missingKeys required_keys mapping_keys = [] ↔
      ∀ k ∈ required_keys, k ∈ mapping_keys := by
  simp [missingKeys, List.filter_eq_nil_iff, List.mem_dedup]

theorem mem_missingKeys_iff (required_keys mapping_keys : List String) (k : String) :
    k ∈ missingKeys required_keys mapping_keys ↔
      k ∈ required_keys ∧ k ∉ mapping_keys := by
  simp [missingKeys, List.mem_filter, List.mem_dedup]

theorem scanConfigs_eq_none {α : Type} (target : Nat) (doc : List (String × α))
    (h : ∀ p ∈ doc, ∀ u, pyUUID p.1 = some u → u ≠ target) :
    scanConfigs target doc = none := by
  induction doc with
  | nil => rfl
  | cons p rest ih =>
    obtain ⟨k, v⟩ := p
    have hrest : ∀ p ∈ rest, ∀ u, pyUUID p.1 = some u → u ≠ target := by
      intro p hp u hu
      exact h p (List.mem_cons_of_mem _ hp) u hu
    simp only [scanConfigs]
    cases hk : pyUUID k with
    | none => exact ih hrest
    | some u =>
      have hne : ¬ target = u := fun he =>
        h (k, v) (List.mem_cons_self _ _) u hk he.symm
      show (if target = u then some v else scanConfigs target rest) = none
      rw [if_neg hne]
      exact ih hrest

theorem scanConfigs_append_of_no_match {α : Type} (target : Nat)
    (pre rest : List (String × α))
    (h : ∀ p ∈ pre, ∀ u, pyUUID p.1 = some u → u ≠ target) :
    scanConfigs target (pre ++ rest) = scanConfigs target rest := by
  induction pre with
  | nil => rfl
  | cons p pre ih =>
    obtain ⟨k, v⟩ := p
    have hpre : ∀ p ∈ pre, ∀ u, pyUUID p.1 = some u → u ≠ target := by
      intro p hp u hu
      exact h p (List.mem_cons_of_mem _ hp) u hu
    simp only [List.cons_append, scanConfigs]
    cases hk : pyUUID k with
    | none => exact ih hpre
    | some u =>
      have hne : ¬ target = u := fun he =>
        h (k, v) (List.mem_cons_self _ _) u hk he.symm
      show (if target = u then some v else scanConfigs target (pre ++ rest)) =
        scanConfigs target rest
      rw [if_neg hne]
      exact ih hpre

theorem scanConfigs_middle_unparseable {α : Type} (target : Nat) (k : String)
    (v : List (String × α)) (pre post : List (String × List (String × α)))
    (hk : pyUUID k = none) :
    scanConfigs target
        ((pre ++ (k, v) :: post) : List (String × List (String × α))) =
      scanConfigs target (pre ++ post) := by
  induction pre with
  | nil =>
    show scanConfigs target ((k, v) :: post) = scanConfigs target post
    simp only [scanConfigs, hk]
  | cons p pre ih =>
    obtain ⟨k', v'⟩ := p
    simp only [List.cons_append, scanConfigs]
    cases hk' : pyUUID k' with
    | none => exact ih
    | some u =>
      show (if target = u then some v' else
          scanConfigs target (pre ++ (k, v) :: post)) =
        (if target = u then some v' else scanConfigs target (pre ++ post))
      by_cases hu : target = u
      · rw [if_pos hu, if_pos hu]
      · rw [if_neg hu, if_neg hu]
        exact ih

theorem scanConfigs_cons_match {α : Type} (target : Nat) (k : String) (v : α)
    (rest : List (String × α)) (hk : pyUUID k = some target) :
    scanConfigs target ((k, v) :: rest) = some v := by
  simp only [scanConfigs, hk]
  simp

/-- Unfolding of `load_config_from_path` once the file exists with a
`.json` suffix: the outcome is decided by the key scan and the
required-key check. -/
theorem load_config_unfold_of_file {α : Type}
    (fs : String → Option (List (String × List (String × α))))
    (config_path : String) (required_keys : List String) (config_uuid : Nat)
    (doc : List (String × List (String × α)))
    (hfs : fs config_path = some doc) (hsuf : pathSuffix config_path = ".json") :
    load_config_from_path fs config_path required_keys config_uuid =
      (match scanConfigs config_uuid doc with
       | none =>
           Except.error (PyError.keyError
             ("config_uuid " ++ uuidStr config_uuid ++ " not found as key in app_config."))
       | some config =>
           match check_keys_not_missing required_keys config (some "config") with
           | Except.error e => Except.error e
           | Except.ok _ => Except.ok config) := by
  unfold load_config_from_path
  simp only [hfs, hsuf, ne_eq]
  rw [if_neg (fun hc => hc trivial)]

theorem check_keys_not_missing_unfold {α : Type} (required_keys : List String)
    (mapping : List (String × α)) (mapping_name : Option String) :
    check_keys_not_missing required_keys mapping mapping_name =
      if (missingKeys required_keys (mapping.map Prod.fst)).isEmpty then Except.ok ()
      else
        Except.error (PyError.keyError ("missing keys " ++
          String.intercalate ", " (missingKeys required_keys (mapping.map Prod.fst)) ++
          (match mapping_name with
           | some s => if s = "" then "." else " in " ++ s ++ "."
           | none => "."))) := rfl

theorem check_keys_eq_ok_iff {α : Type} (required_keys : List String)
    (mapping : List (String × α)) (mapping_name : Option String) :
    check_keys_not_missing required_keys mapping mapping_name = Except.ok () ↔
      ∀ k ∈ required_keys, k ∈ mapping.map Prod.fst := by
  rw [check_keys_not_missing_unfold, ← missingKeys_eq_nil_iff required_keys (mapping.map Prod.fst)]
  by_cases hm : missingKeys required_keys (mapping.map Prod.fst) = []
  · simp [hm]
  · rw [if_neg (by simpa [List.isEmpty_iff] using hm)]
    simp [hm]

theorem check_keys_eq_error_of_missing {α : Type} (required_keys : List String)
    (mapping : List (String × α)) (mapping_name : Option String)
    (hm : ¬ ∀ k ∈ required_keys, k ∈ mapping.map Prod.fst) :
    check_keys_not_missing required_keys mapping mapping_name =
      Except.error (PyError.keyError ("missing keys " ++
        String.intercalate ", " (missingKeys required_keys (mapping.map Prod.fst)) ++
        (match mapping_name with
         | some s => if s = "" then "." else " in " ++ s ++ "."
         | none => "."))) := by
  rw [check_keys_not_missing_unfold, if_neg]
  simpa [List.isEmpty_iff, missingKeys_eq_nil_iff] using hm

/-! ### Claim theorems -/

/-- C10: `check_all_arguments_are_none_or_not` returns `true` iff all
arguments are `None` or no argument is `None`; with zero arguments it
returns `true`. -/
theorem check_all_arguments_none_or_not_iff {α : Type} (args : List (Option α)) :
    (check_all_arguments_are_none_or_not args = true ↔
      ((∀ a ∈ args, a = none) ∨ (∀ a ∈ args, a ≠ none))) ∧
    check_all_arguments_are_none_or_not ([] : List (Option α)) = true := by
  refine ⟨?_, rfl⟩
  have hany : ((args.map Option.isNone).any id = true) ↔ ∃ a ∈ args, a = none := by
    simp [List.any_map, Function.comp, Option.isNone_iff_eq_none]
  have hall : ((args.map Option.isNone).all id = true) ↔ ∀ a ∈ args, a = none := by
    simp [List.all_map, Function.comp, Option.isNone_iff_eq_none]
  show (!((args.map Option.isNone).any id && !((args.map Option.isNone).all id))) = true
      ↔ _
  constructor
  · intro h
    cases hx : (args.map Option.isNone).any id with
    | false =>
      right
      intro a ha hn
      have hx' : (args.map Option.isNone).any id = true := hany.mpr ⟨a, ha, hn⟩
      rw [hx] at hx'
      exact Bool.false_ne_true hx'
    | true =>
      cases hy : (args.map Option.isNone).all id with
      | false =>
        rw [hx, hy] at h
        simp at h
      | true => exact Or.inl (hall.mp hy)
  · rintro (h | h)
    · rw [hall.mpr h]
      simp
    · have hx : (args.map Option.isNone).any id = false := by
        cases hx : (args.map Option.isNone).any id
        · rfl
        · obtain ⟨a, ha, hn⟩ := hany.mp hx
          exact absurd hn (h a ha)
      rw [hx]
      simp

/-- C9: `get_optimal_uintype` raises `ValueError` exactly on negative
integers, and on each listed range returns exactly the listed unsigned
integer type name (stated as equivalences, so each type name is returned
only on its own range). -/
theorem get_optimal_uintype_ranges (n : Int) :
    (get_optimal_uintype n =
        Except.error (PyError.valueError "Input number must be non-negative.") ↔
      n < 0) ∧
    (get_optimal_uintype n = Except.ok "uint8" ↔ 0 ≤ n ∧ n ≤ 255) ∧
    (get_optimal_uintype n = Except.ok "uint16" ↔ 256 ≤ n ∧ n ≤ 65535) ∧
    (get_optimal_uintype n = Except.ok "uint32" ↔ 65536 ≤ n ∧ n ≤ 4294967295) ∧
    (get_optimal_uintype n = Except.ok "uint64" ↔
      4294967296 ≤ n ∧ n ≤ 18446744073709551615) := by
  unfold get_optimal_uintype float32UpperLit
  split_ifs <;> refine ⟨?_, ?_, ?_, ?_, ?_⟩ <;> simp_all <;> omega

/-- C7 counterexample: with `mapping_name` supplied as the empty string,
`check_keys_not_missing` uses the bare suffix `"."` (the Python guard
`if mapping_name` is false for `""`), not the claimed `" in {mappingName}."`. -/
theorem check_keys_empty_name_counterexample :
    check_keys_not_missing ["a"] ([] : List (String × Nat)) (some "") =
      Except.error (PyError.keyError "missing keys a.") ∧
    check_keys_not_missing ["a"] ([] : List (String × Nat)) (some "") ≠
      Except.error (PyError.keyError "missing keys a in .") := by
  refine ⟨rfl, fun h => ?_⟩
  have h0 : check_keys_not_missing ["a"] ([] : List (String × Nat)) (some "") =
      Except.error (PyError.keyError "missing keys a.") := rfl
  rw [h0] at h
  injection h with h1
  injection h1 with h2
  exact absurd h2 (by decide)

/-- C7 (amended): `check_keys_not_missing` returns normally iff every
required key is in the mapping; otherwise it raises a `KeyError` whose
message enumerates exactly the missing key names, comma-joined, with the
suffix `" in {mappingName}."` when a non-empty mapping name is supplied and
`"."` when the name is absent or empty. -/
theorem check_keys_not_missing_spec {α : Type} (required_keys : List String)
    (mapping : List (String × α)) (mapping_name : Option String) :
    (check_keys_not_missing required_keys mapping mapping_name = Except.ok () ↔
      ∀ k ∈ required_keys, k ∈ mapping.map Prod.fst) ∧
    (∀ k, k ∈ missingKeys required_keys (mapping.map Prod.fst) ↔
      (k ∈ required_keys ∧ k ∉ mapping.map Prod.fst)) ∧
    (∀ s, mapping_name = some s → s ≠ "" →
      ¬ (∀ k ∈ required_keys, k ∈ mapping.map Prod.fst) →
      check_keys_not_missing required_keys mapping mapping_name =
        Except.error (PyError.keyError ("missing keys " ++
          String.intercalate ", " (missingKeys required_keys (mapping.map Prod.fst)) ++
          " in " ++ s ++ "."))) ∧
    ((mapping_name = none ∨ mapping_name = some "") →
      ¬ (∀ k ∈ required_keys, k ∈ mapping.map Prod.fst) →
      check_keys_not_missing required_keys mapping mapping_name =
        Except.error (PyError.keyError ("missing keys " ++
          String.intercalate ", " (missingKeys required_keys (mapping.map Prod.fst)) ++
          "."))) := by
  refine ⟨check_keys_eq_ok_iff required_keys mapping mapping_name,
    mem_missingKeys_iff required_keys (mapping.map Prod.fst), ?_, ?_⟩
  · intro s hs hne hm
    rw [check_keys_eq_error_of_missing required_keys mapping mapping_name hm, hs]
    show Except.error (PyError.keyError ("missing keys " ++
      String.intercalate ", " (missingKeys required_keys (mapping.map Prod.fst)) ++
      (if s = "" then "." else " in " ++ s ++ "."))) = _
    rw [if_neg hne]
    simp [String.append_assoc]
  · intro hs hm
    rw [check_keys_eq_error_of_missing required_keys mapping mapping_name hm]
    rcases hs with hs | hs
    · rw [hs]
    · rw [hs]
      simp

/-- C7 witness: concrete runs of the amended characterisation — all keys
present, a missing key with a non-empty mapping name, and a missing key
with no mapping name. -/
theorem check_keys_not_missing_spec_witness :
    check_keys_not_missing ["a"] [("a", (1 : Nat))] (some "config") = Except.ok () ∧
    check_keys_not_missing ["a", "c"] [("a", (1 : Nat))] (some "config") =
      Except.error (PyError.keyError "missing keys c in config.") ∧
    check_keys_not_missing ["c"] [("a", (1 : Nat))] none =
      Except.error (PyError.keyError "missing keys c.") :=
  ⟨((check_keys_not_missing_spec ["a"] [("a", 1)] (some "config")).1).mpr (by decide),
   (check_keys_not_missing_spec ["a", "c"] [("a", 1)] (some "config")).2.2.1
     "config" rfl (by decide) (by decide),
   (check_keys_not_missing_spec ["c"] [("a", 1)] none).2.2.2 (Or.inl rfl) (by decide)⟩

/-- C5: `load_id_from_env` fails with a not-found `KeyError` exactly when
the variable is unset, fails with a `ValueError` exactly when it is set to
a value that does not parse as a UUID, and otherwise returns the parsed
UUID. -/
theorem load_id_from_env_spec (environ : List (String × String)) (name : String) :
    (load_id_from_env environ name =
        Except.error (PyError.keyError (name ++ " not found in environment variables.")) ↔
      environ.lookup name = none) ∧
    (load_id_from_env environ name =
        Except.error (PyError.valueError ("The value of " ++ name ++ " not a valid UUID.")) ↔
      ∃ v, environ.lookup name = some v ∧ pyUUID v = none) ∧
    (∀ u, load_id_from_env environ name = Except.ok u ↔
      ∃ v, environ.lookup name = some v ∧ pyUUID v = some u) := by
  unfold load_id_from_env
  cases hl : environ.lookup name with
  | none => simp
  | some v =>
    cases hu : pyUUID v with
    | none => simp [hu]
    | some u => simp [hu]

/-- C4: `load_config_from_path` fails with `FileNotFoundError` on every
path that is not a file — whatever its extension, so the existence check
precedes the extension check — and with `TypeError` on every existing file
whose suffix is not `.json`, regardless of the file's contents. -/
theorem load_config_path_checks {α : Type}
    (fs : String → Option (List (String × List (String × α))))
    (config_path : String) (required_keys : List String) (config_uuid : Nat) :
    (fs config_path = none →
      load_config_from_path fs config_path required_keys config_uuid =
        Except.error (PyError.fileNotFoundError (config_path ++ " not found."))) ∧
    (∀ doc, fs config_path = some doc → pathSuffix config_path ≠ ".json" →
      load_config_from_path fs config_path required_keys config_uuid =
        Except.error (PyError.typeError (config_path ++ " must be a .json file."))) := by
  constructor
  · intro h
    unfold load_config_from_path
    simp only [h]
  · intro doc h hsuf
    unfold load_config_from_path
    simp only [h]
    rw [if_pos hsuf]

/-- C4 witness: a nonexistent path with a non-JSON extension gives
`FileNotFoundError` (existence first), and an existing non-JSON file gives
`TypeError`. -/
theorem load_config_path_checks_witness :
    load_config_from_path (fun _ => (none : Option (List (String × List (String × Nat)))))
        "missing.txt" [] 0 =
      Except.error (PyError.fileNotFoundError "missing.txt not found.") ∧
    load_config_from_path
        (fun p => if p = "c.txt" then some [] else (none : Option (List (String × List (String × Nat)))))
        "c.txt" [] 0 =
      Except.error (PyError.typeError "c.txt must be a .json file.") :=
  ⟨(load_config_path_checks _ "missing.txt" [] 0).1 rfl,
   (load_config_path_checks _ "c.txt" [] 0).2 [] rfl (by decide)⟩

/-- C2: when no top-level key of the document parses to a UUID equal to
`config_uuid` (in particular on the empty document), `load_config_from_path`
fails with the not-found `KeyError` and never returns a record. -/
theorem load_config_no_match {α : Type}
    (fs : String → Option (List (String × List (String × α))))
    (config_path : String) (required_keys : List String) (config_uuid : Nat)
    (doc : List (String × List (String × α)))
    (hfs : fs config_path = some doc)
    (hsuf : pathSuffix config_path = ".json")
    (hnm : ∀ p ∈ doc, ∀ u, pyUUID p.1 = some u → u ≠ config_uuid) :
    load_config_from_path fs config_path required_keys config_uuid =
      Except.error (PyError.keyError
        ("config_uuid " ++ uuidStr config_uuid ++ " not found as key in app_config.")) ∧
    ∀ r, load_config_from_path fs config_path required_keys config_uuid ≠ Except.ok r := by
  have heq : load_config_from_path fs config_path required_keys config_uuid =
      Except.error (PyError.keyError
        ("config_uuid " ++ uuidStr config_uuid ++ " not found as key in app_config.")) := by
    rw [load_config_unfold_of_file fs config_path required_keys config_uuid doc hfs hsuf]
    rw [scanConfigs_eq_none config_uuid doc hnm]
  exact ⟨heq, fun r h => by rw [heq] at h; exact Except.noConfusion h⟩

/-- C2 witness: resolving UUID 0 against an empty document fails with the
not-found `KeyError`. -/
theorem load_config_no_match_witness :
    load_config_from_path
        (fun p => if p = "a.json" then some [] else (none : Option (List (String × List (String × Nat)))))
        "a.json" [] 0 =
      Except.error (PyError.keyError
        "config_uuid 00000000-0000-0000-0000-000000000000 not found as key in app_config.") :=
  (load_config_no_match _ "a.json" [] 0 [] rfl rfl (by simp)).1

/-- C1 counterexample: the document has a key equal to the string form of
the target (`uuidStr` of `0xaaa…a` = `"aaaaaaaa-aaaa-aaaa-aaaa-aaaaaaaaaaaa"`)
whose value is `[("a", 2)]`, yet `resolve` returns `[("a", 1)]`, the value
of an earlier key (the uppercase spelling) that parses to the same UUID —
so `resolve` does not always return the value of the key equal to the
string form of the target. -/
theorem load_config_first_match_counterexample :
    load_config_from_path
        (fun p => if p = "c.json" then
            some [("AAAAAAAA-AAAA-AAAA-AAAA-AAAAAAAAAAAA", [("a", (1 : Nat))]),
                  ("aaaaaaaa-aaaa-aaaa-aaaa-aaaaaaaaaaaa", [("a", 2)])]
          else none)
        "c.json" [] 0xaaaaaaaaaaaaaaaaaaaaaaaaaaaaaaaa = Except.ok [("a", 1)] ∧
    uuidStr 0xaaaaaaaaaaaaaaaaaaaaaaaaaaaaaaaa =
      "aaaaaaaa-aaaa-aaaa-aaaa-aaaaaaaaaaaa" ∧
    [("a", (1 : Nat))] ≠ [("a", (2 : Nat))] :=
  ⟨rfl, rfl, by decide⟩

/-- C1 (amended): `resolve` scans the top-level keys in stored order and
returns the value of the first key whose parsed UUID equals the target
(required keys being present); in particular it returns the value of a key
equal to the string form of the target provided no earlier key also parses
to the target. -/
theorem load_config_first_match {α : Type}
    (fs : String → Option (List (String × List (String × α))))
    (config_path : String) (required_keys : List String) (config_uuid : Nat)
    (pre post : List (String × List (String × α))) (k : String)
    (v : List (String × α))
    (hfs : fs config_path = some (pre ++ (k, v) :: post))
    (hsuf : pathSuffix config_path = ".json")
    (hpre : ∀ p ∈ pre, ∀ u, pyUUID p.1 = some u → u ≠ config_uuid)
    (hk : pyUUID k = some config_uuid)
    (hreq : ∀ kk ∈ required_keys, kk ∈ v.map Prod.fst) :
    load_config_from_path fs config_path required_keys config_uuid = Except.ok v := by
  rw [load_config_unfold_of_file fs config_path required_keys config_uuid _ hfs hsuf]
  have hscan : scanConfigs config_uuid (pre ++ (k, v) :: post) = some v := by
    rw [scanConfigs_append_of_no_match config_uuid pre _ hpre,
      scanConfigs_cons_match config_uuid k v post hk]
  simp only [hscan]
  rw [(check_keys_eq_ok_iff required_keys v (some "config")).mpr hreq]

/-- C1 witness: the §8 scenario — a document keyed by the string form of
the target resolves to that key's value when the required keys are
present. -/
theorem load_config_first_match_witness :
    load_config_from_path
        (fun p => if p = "c.json" then
            some [("11111111-1111-1111-1111-111111111111", [("a", (1 : Nat)), ("b", 2)])]
          else none)
        "c.json" ["a", "b"] 0x11111111111111111111111111111111 =
      Except.ok [("a", 1), ("b", 2)] :=
  load_config_first_match _ "c.json" ["a", "b"] 0x11111111111111111111111111111111
    [] [] "11111111-1111-1111-1111-111111111111" [("a", 1), ("b", 2)]
    rfl rfl (by simp) rfl (by decide)

/-- C3: once a record is selected, `resolve` returns it exactly when every
required key is among its keys; otherwise it fails with a `KeyError` whose
message lists exactly the missing keys, comma-joined, naming the record
`config`. -/
theorem load_config_required_keys {α : Type}
    (fs : String → Option (List (String × List (String × α))))
    (config_path : String) (required_keys : List String) (config_uuid : Nat)
    (doc : List (String × List (String × α))) (r : List (String × α))
    (hfs : fs config_path = some doc)
    (hsuf : pathSuffix config_path = ".json")
    (hscan : scanConfigs config_uuid doc = some r) :
    ((∀ k ∈ required_keys, k ∈ r.map Prod.fst) →
      load_config_from_path fs config_path required_keys config_uuid = Except.ok r) ∧
    (¬ (∀ k ∈ required_keys, k ∈ r.map Prod.fst) →
      load_config_from_path fs config_path required_keys config_uuid =
        Except.error (PyError.keyError ("missing keys " ++
          String.intercalate ", " (missingKeys required_keys (r.map Prod.fst)) ++
          " in config.")) ∧
      ∀ k, k ∈ missingKeys required_keys (r.map Prod.fst) ↔
        (k ∈ required_keys ∧ k ∉ r.map Prod.fst)) := by
  rw [load_config_unfold_of_file fs config_path required_keys config_uuid doc hfs hsuf]
  simp only [hscan]
  constructor
  · intro h
    rw [(check_keys_eq_ok_iff required_keys r (some "config")).mpr h]
  · intro h
    refine ⟨?_, mem_missingKeys_iff required_keys (r.map Prod.fst)⟩
    rw [check_keys_eq_error_of_missing required_keys r (some "config") h]
    simp [String.append_assoc]

/-- C3 witness: the §8 scenarios — with required keys `{a, b}` present the
record is returned; with `{a, c}` the resolution fails naming exactly `c`. -/
theorem load_config_required_keys_witness :
    load_config_from_path
        (fun p => if p = "c.json" then
            some [("11111111-1111-1111-1111-111111111111", [("a", (1 : Nat)), ("b", 2)])]
          else none)
        "c.json" ["a", "b"] 0x11111111111111111111111111111111 =
      Except.ok [("a", 1), ("b", 2)] ∧
    load_config_from_path
        (fun p => if p = "c.json" then
            some [("11111111-1111-1111-1111-111111111111", [("a", (1 : Nat)), ("b", 2)])]
          else none)
        "c.json" ["a", "c"] 0x11111111111111111111111111111111 =
      Except.error (PyError.keyError "missing keys c in config.") :=
  ⟨(load_config_required_keys _ "c.json" ["a", "b"]
      0x11111111111111111111111111111111
      [("11111111-1111-1111-1111-111111111111", [("a", 1), ("b", 2)])]
      [("a", 1), ("b", 2)] rfl rfl rfl).1 (by decide),
   ((load_config_required_keys _ "c.json" ["a", "c"]
      0x11111111111111111111111111111111
      [("11111111-1111-1111-1111-111111111111", [("a", 1), ("b", 2)])]
      [("a", 1), ("b", 2)] rfl rfl rfl).2 (by decide)).1⟩

/-- C6: a top-level key that does not parse as a UUID never matches and is
skipped silently — resolving a document with such a key gives the same
outcome as resolving the document without it (no error arises from the
unparseable key). -/
theorem load_config_skips_unparseable {α : Type}
    (fs₁ fs₂ : String → Option (List (String × List (String × α))))
    (config_path : String) (required_keys : List String) (config_uuid : Nat)
    (k : String) (v : List (String × α))
    (pre post : List (String × List (String × α)))
    (hk : pyUUID k = none)
    (h1 : fs₁ config_path = some (pre ++ (k, v) :: post))
    (h2 : fs₂ config_path = some (pre ++ post)) :
    load_config_from_path fs₁ config_path required_keys config_uuid =
      load_config_from_path fs₂ config_path required_keys config_uuid := by
  by_cases hsuf : pathSuffix config_path = ".json"
  · rw [load_config_unfold_of_file fs₁ config_path required_keys config_uuid _ h1 hsuf,
      load_config_unfold_of_file fs₂ config_path required_keys config_uuid _ h2 hsuf,
      scanConfigs_middle_unparseable config_uuid k v pre post hk]
  · unfold load_config_from_path
    simp only [h1, h2]
    rw [if_pos hsuf, if_pos hsuf]

/-- C6 witness: inserting the unparseable key `"comment"` between two
UUID-shaped keys leaves the resolution outcome unchanged. -/
theorem load_config_skips_unparseable_witness :
    load_config_from_path
        (fun p => if p = "c.json" then
            some [("00000000-0000-0000-0000-000000000001", [("x", (9 : Nat))]),
                  ("comment", [("y", 0)]),
                  ("00000000-0000-0000-0000-000000000002", [("a", 7)])]
          else none)
        "c.json" ["a"] 2 =
      load_config_from_path
        (fun p => if p = "c.json" then
            some [("00000000-0000-0000-0000-000000000001", [("x", (9 : Nat))]),
                  ("00000000-0000-0000-0000-000000000002", [("a", 7)])]
          else none)
        "c.json" ["a"] 2 :=
  load_config_skips_unparseable _ _ "c.json" ["a"] 2 "comment" [("y", 0)]
    [("00000000-0000-0000-0000-000000000001", [("x", 9)])]
    [("00000000-0000-0000-0000-000000000002", [("a", 7)])]
    rfl rfl rfl

/-- C8: whenever a resolution call returns a record (rather than a typed
error), that record is uniquely determined: the file existed, had the
`.json` suffix, the scan selected exactly that record, and it passed the
required-key validation — there is no partial-success outcome. -/
theorem load_config_unique_outcome {α : Type}
    (fs : String → Option (List (String × List (String × α))))
    (config_path : String) (required_keys : List String) (config_uuid : Nat)
    (r : List (String × α))
    (h : load_config_from_path fs config_path required_keys config_uuid = Except.ok r) :
    ∃ doc, fs config_path = some doc ∧ pathSuffix config_path = ".json" ∧
      scanConfigs config_uuid doc = some r ∧
      ∀ k ∈ required_keys, k ∈ r.map Prod.fst := by
  cases hfs : fs config_path with
  | none =>
    unfold load_config_from_path at h
    simp only [hfs] at h
    exact Except.noConfusion h
  | some doc =>
    by_cases hsuf : pathSuffix config_path = ".json"
    · rw [load_config_unfold_of_file fs config_path required_keys config_uuid doc hfs hsuf]
        at h
      cases hscan : scanConfigs config_uuid doc with
      | none =>
        simp only [hscan] at h
        exact Except.noConfusion h
      | some r' =>
        simp only [hscan] at h
        cases hck : check_keys_not_missing required_keys r' (some "config") with
        | error e =>
          simp only [hck] at h
          exact Except.noConfusion h
        | ok u =>
          simp only [hck] at h
          injection h with h'
          subst h'
          cases u
          exact ⟨doc, rfl, hsuf, hscan,
            (check_keys_eq_ok_iff required_keys r' (some "config")).mp hck⟩
    · unfold load_config_from_path at h
      simp only [hfs] at h
      rw [if_pos hsuf] at h
      exact Except.noConfusion h

/-- C8 witness: a successful concrete resolution, decomposed by the
theorem. -/
theorem load_config_unique_outcome_witness :
    ∃ doc, (fun p => if p = "c.json" then
        some [("11111111-1111-1111-1111-111111111111", [("a", (1 : Nat))])]
      else none) "c.json" = some doc ∧
      pathSuffix "c.json" = ".json" ∧
      scanConfigs 0x11111111111111111111111111111111 doc = some [("a", 1)] ∧
      ∀ k ∈ ["a"], k ∈ ([("a", (1 : Nat))].map Prod.fst) :=
  load_config_unique_outcome
    (fun p => if p = "c.json" then
        some [("11111111-1111-1111-1111-111111111111", [("a", (1 : Nat))])]
      else none)
    "c.json" ["a"] 0x11111111111111111111111111111111 [("a", 1)] rfl

end LlmUtilities
